import Mathlib

/-!
# Verification of the ETF monitor dashboard client (src/static/js/main.js)

This file shallowly embeds the browser-side dashboard client of the
`etf_monitor` repository and settles the frozen claims about it.

Modelling conventions:
* JavaScript numbers are modelled as exact rationals (`ℚ`); the
  `Number.prototype.toFixed` rounding (nearest, ties to the larger value)
  is modelled in exact rational arithmetic, IEEE-754 double imprecision
  and the "-0" display are not modelled.
* DOM rendering functions are modelled as pure functions from the data
  they read to a list of abstract row values; class toggling on panels is
  modelled as boolean `hidden` flags in an explicit state record.
* `async` fetch wrappers are modelled as functions from the outcome of
  their network call (fetch threw / HTTP status not ok / JSON body) to
  the list of observable effects they perform, in program order.
-/

namespace EtfMonitor

/-! ## Amount formatter (main.js lines 30-38) -/

/-- Left-pad a digit string with '0' up to `d` characters, used for the
fractional part produced by `toFixed`. -/
def padZeros (d : Nat) (s : String) : String :=
  String.mk (List.replicate (d - s.length) '0') ++ s

/-- The integer selected by JavaScript `x.toFixed(d)`: the `n` minimizing
the distance between `n / 10^d` and `x`, ties going to the larger `n`,
i.e. `⌊x * 10^d + 1/2⌋`. -/
def jsRound (d : Nat) (q : ℚ) : ℤ :=
  ⌊q * 10 ^ d + 1 / 2⌋

/-- JavaScript `q.toFixed(d)` in exact rational arithmetic. -/
def jsToFixed (d : Nat) (q : ℚ) : String :=
  (if jsRound d q < 0 then "-" else "") ++
    (if d = 0 then Nat.repr (jsRound d q).natAbs
     else Nat.repr ((jsRound d q).natAbs / 10 ^ d) ++ "." ++
       padZeros d (Nat.repr ((jsRound d q).natAbs % 10 ^ d)))

/-- `formatAmount` from main.js lines 30-38:
`const billion = amount / 100000000; if (billion >= 1) return
billion.toFixed(1) + '억원'; else return (amount / 10000000).toFixed(0)
+ '백만원';`. -/
def formatAmount (amount : ℚ) : String :=
  if 1 ≤ amount / 100000000 then jsToFixed 1 (amount / 100000000) ++ "억원"
  else jsToFixed 0 (amount / 10000000) ++ "백만원"

/-- Modelled from the spec words for the amount formatter, in integer
arithmetic: if `amount / 1e8 ≥ 1` the quotient rounded (half-up) to one
decimal place with the 억원 label, otherwise `amount / 1e7` rounded to an
integer with the 백만원 label. -/
def specFormatAmount (amount : Nat) : String :=
  if 100000000 ≤ amount then
    Nat.repr ((amount + 5000000) / 10000000 / 10) ++ "." ++
      Nat.repr ((amount + 5000000) / 10000000 % 10) ++ "억원"
  else
    Nat.repr ((amount + 5000000) / 10000000) ++ "백만원"

lemma int_floor_nat_div (p q : Nat) :
    ⌊((p : ℚ) / (q : ℚ))⌋ = ((p / q : Nat) : ℤ) := by
  rcases Nat.eq_zero_or_pos q with hq | hq
  · subst hq; simp
  · have hq' : (0 : ℚ) < (q : ℚ) := by exact_mod_cast hq
    rw [Int.floor_eq_iff]
    constructor
    · rw [le_div_iff₀ hq']
      exact_mod_cast Nat.div_mul_le_self p q
    · rw [div_lt_iff₀ hq']
      have h4 : p % q < q := Nat.mod_lt p hq
      have h6 : p / q * q + p % q = p := Nat.div_add_mod' p q
      have h3 : p < (p / q + 1) * q := by
        rw [Nat.add_mul, one_mul]
        omega
      exact_mod_cast h3

lemma floor_half_up (a : Nat) :
    ⌊((a : ℚ) / 10000000 + 1 / 2)⌋ = (((a + 5000000) / 10000000 : Nat) : ℤ) := by
  have h1 : ((a : ℚ) / 10000000 + 1 / 2)
      = (((2 * a + 10000000 : Nat)) : ℚ) / (((20000000 : Nat)) : ℚ) := by
    push_cast
    field_simp
    ring
  rw [h1, int_floor_nat_div]
  have h2 : (2 * a + 10000000) / 20000000 = (a + 5000000) / 10000000 := by
    omega
  exact_mod_cast h2

lemma padZeros_one (m : Nat) (hm : m < 10) :
    padZeros 1 (Nat.repr m) = Nat.repr m := by
  interval_cases m <;> rfl

lemma str_empty_append (s : String) : "" ++ s = s := by
  apply String.ext
  rw [String.data_append]
  exact List.nil_append _

lemma format_eq (a : Nat) : formatAmount (a : ℚ) = specFormatAmount a := by
  have hr : jsRound 1 ((a : ℚ) / 100000000) = (((a + 5000000) / 10000000 : Nat) : ℤ) := by
    unfold jsRound
    have h1 : (a : ℚ) / 100000000 * 10 ^ 1 + 1 / 2 = (a : ℚ) / 10000000 + 1 / 2 := by
      ring
    rw [h1, floor_half_up]
  have hr0 : jsRound 0 ((a : ℚ) / 10000000) = (((a + 5000000) / 10000000 : Nat) : ℤ) := by
    unfold jsRound
    have h1 : (a : ℚ) / 10000000 * 10 ^ 0 + 1 / 2 = (a : ℚ) / 10000000 + 1 / 2 := by
      ring
    rw [h1, floor_half_up]
  by_cases h : 100000000 ≤ a
  · have hb : 1 ≤ (a : ℚ) / 100000000 := by
      rw [le_div_iff₀ (by norm_num : (0 : ℚ) < 100000000), one_mul]
      exact_mod_cast h
    unfold formatAmount specFormatAmount jsToFixed
    rw [if_pos hb, if_pos h, hr]
    rw [if_neg (by omega : ¬ ((((a + 5000000) / 10000000 : Nat) : ℤ) < 0))]
    rw [if_neg (by norm_num : ¬ ((1 : Nat) = 0))]
    rw [Int.natAbs_ofNat, pow_one]
    rw [padZeros_one _ (Nat.mod_lt _ (by norm_num)), str_empty_append]
  · have hb : ¬ (1 ≤ (a : ℚ) / 100000000) := by
      rw [le_div_iff₀ (by norm_num : (0 : ℚ) < 100000000), one_mul]
      exact_mod_cast h
    unfold formatAmount specFormatAmount jsToFixed
    rw [if_neg hb, if_neg h, hr0]
    rw [if_neg (by omega : ¬ ((((a + 5000000) / 10000000 : Nat) : ℤ) < 0))]
    rw [if_pos rfl, Int.natAbs_ofNat, str_empty_append]

/-- C1: the amount formatter, on any integer amount, returns the quotient
`amount / 1e8` rounded to 1 decimal place with the 억원 label whenever
that quotient is at least 1, and otherwise `amount / 1e7` rounded to 0
decimal places with the 백만원 label; in particular
`formatAmount 150000000 = "1.5억원"` and `formatAmount 50000000 = "5백만원"`. -/
theorem claim1_formatAmount :
    (∀ a : Nat, formatAmount (a : ℚ) = specFormatAmount a)
      ∧ formatAmount 150000000 = "1.5억원"
      ∧ formatAmount 50000000 = "5백만원" := by
  refine ⟨format_eq, ?_, ?_⟩
  · have h := format_eq 150000000
    have hc : ((150000000 : Nat) : ℚ) = (150000000 : ℚ) := by norm_num
    rw [hc] at h
    rw [h]
    decide
  · have h := format_eq 50000000
    have hc : ((50000000 : Nat) : ℚ) = (50000000 : ℚ) := by norm_num
    rw [hc] at h
    rw [h]
    decide

/-! ## ETF list search filter (main.js lines 380-386) -/

/-- ETF summary list entry `{ ticker, name }`. -/
structure Etf where
  ticker : String
  name : String
deriving DecidableEq

/-- JavaScript `String.prototype.toLowerCase`, modelled character-wise
(ASCII case mapping). -/
def jsToLower (s : String) : String :=
  String.mk (s.data.map Char.toLower)

/-- JavaScript `s.includes(sub)`: `sub` occurs contiguously in `s`. -/
def strIncludes (s sub : String) : Bool :=
  decide (sub.data <:+: s.data)

/-- The `etfSearch` input handler's filter (main.js lines 380-386):
`searchTerm = e.target.value.toLowerCase()` and the list is filtered by
`etf.name.toLowerCase().includes(searchTerm) ||
etf.ticker.includes(searchTerm)`. -/
def filterEtfs (allEtfs : List Etf) (searchInput : String) : List Etf :=
  allEtfs.filter fun etf =>
    strIncludes (jsToLower etf.name) (jsToLower searchInput)
      || strIncludes etf.ticker (jsToLower searchInput)

/-- C10: the search filter keeps exactly the ETFs whose lowercased name
contains the lowercased query, or whose ticker (not lowercased) contains
the lowercased query; consequently an all-uppercase ticker does not match
an all-uppercase query (which is lowercased first), while name matching
is case-insensitive. -/
theorem claim10_searchFilter :
    (∀ (etfs : List Etf) (q : String) (e : Etf),
        e ∈ filterEtfs etfs q ↔
          e ∈ etfs ∧ ((jsToLower q).data <:+: (jsToLower e.name).data
            ∨ (jsToLower q).data <:+: e.ticker.data))
      ∧ filterEtfs [⟨"ABC", "xyz"⟩] "ABC" = []
      ∧ filterEtfs [⟨"ABC", "xyz"⟩] "XYZ" = [⟨"ABC", "xyz"⟩] := by
  refine ⟨?_, by decide, by decide⟩
  intro etfs q e
  rw [filterEtfs, List.mem_filter]
  constructor
  · rintro ⟨hm, hp⟩
    rcases Bool.or_eq_true _ _ |>.mp hp with h1 | h1
    · exact ⟨hm, Or.inl (of_decide_eq_true h1)⟩
    · exact ⟨hm, Or.inr (of_decide_eq_true h1)⟩
  · rintro ⟨hm, h1 | h1⟩
    · exact ⟨hm, Bool.or_eq_true _ _ |>.mpr (Or.inl (decide_eq_true h1))⟩
    · exact ⟨hm, Bool.or_eq_true _ _ |>.mpr (Or.inr (decide_eq_true h1))⟩

/-! ## Holdings table renderer (main.js lines 86-115) -/

/-- One element of the `comparison` array of an ETF comparison record. -/
structure HoldingDelta where
  stock_ticker : String
  stock_name : String
  prev_weight : ℚ
  current_weight : ℚ
  change : ℚ
  current_amount : ℚ
  status : String
deriving DecidableEq

/-- A rendered row of the holdings table: either the full-width
"no data" placeholder (`<tr><td colspan="7">구성 종목 정보가 없습니다.</td></tr>`)
or an entry row with its cell contents and computed CSS classes. -/
inductive HoldingsRow where
  | noData
  | entry (rank : Nat) (stockTicker stockName prevW curW changeCell
      changeClass amountCell statusClass statusText : String)
deriving DecidableEq

/-- The `statusClass` computation of main.js line 102. -/
def statusClassOf (status : String) : String :=
  "status-" ++
    (if status = "신규" then "new"
     else if status = "제외" then "removed"
     else if status = "비중 증가" then "increase"
     else if status = "비중 감소" then "decrease"
     else "hold")

/-- The `changeClass` computation of main.js line 101. -/
def changeClassOf (change : ℚ) : String :=
  if change > 0 then "change-positive"
  else if change < 0 then "change-negative"
  else ""

/-- The row built for `dataToShow[index]` by main.js lines 96-114. -/
def rowOfItem (index : Nat) (item : HoldingDelta) : HoldingsRow :=
  HoldingsRow.entry (index + 1) item.stock_ticker item.stock_name
    (jsToFixed 2 item.prev_weight) (jsToFixed 2 item.current_weight)
    ((if item.change > 0 then "+" else "") ++ jsToFixed 2 item.change)
    (changeClassOf item.change) (formatAmount item.current_amount)
    (statusClassOf item.status) item.status

/-- JavaScript `parseInt` restricted to the selector's unsigned decimal
values: `none` models `NaN` (no leading digits). -/
def jsParseInt (s : String) : Option Nat :=
  if (s.data.takeWhile Char.isDigit).isEmpty then none
  else some ((s.data.takeWhile Char.isDigit).foldl
    (fun acc c => acc * 10 + (c.toNat - 48)) 0)

/-- `dataToShow` from main.js line 89: the whole array for `"all"`,
otherwise `holdingsData.slice(0, parseInt(count))` (`slice(0, NaN)` is
empty). -/
def dataToShow (holdingsData : List HoldingDelta) (count : String) :
    List HoldingDelta :=
  if count = "all" then holdingsData
  else
    match jsParseInt count with
    | none => []
    | some n => holdingsData.take n

/-- `renderHoldingsTable` from main.js lines 86-115 as a pure function of
the data it reads (`holdingsData` and the count selector value). -/
def renderHoldingsTable (holdingsData : List HoldingDelta) (count : String) :
    List HoldingsRow :=
  if (dataToShow holdingsData count).length = 0 then [HoldingsRow.noData]
  else (dataToShow holdingsData count).enum.map fun p => rowOfItem p.1 p.2

/-- Modelled from the spec words: the rows shown are exactly the rows of
the selected slice, in order, each labeled with its 1-based index. -/
def specHoldingsRows (shown : List HoldingDelta) : List HoldingsRow :=
  shown.enum.map fun p => rowOfItem p.1 p.2

/-- The 1-based index displayed in a row's first cell. -/
def rankOf : HoldingsRow → Nat
  | HoldingsRow.noData => 0
  | HoldingsRow.entry r _ _ _ _ _ _ _ _ _ => r

/-- A sample holding used for the concrete 8-element instance. -/
def dItem (i : Nat) : HoldingDelta :=
  ⟨Nat.repr i, "종목" ++ Nat.repr i, 1, 2, 1, 1000000, "유지"⟩

/-- An 8-element comparison array. -/
def d8 : List HoldingDelta :=
  [dItem 1, dItem 2, dItem 3, dItem 4, dItem 5, dItem 6, dItem 7, dItem 8]

lemma rank_map_enumFrom (l : List HoldingDelta) (k : Nat) :
    ((List.enumFrom k l).map fun p => rowOfItem p.1 p.2).map rankOf
      = List.range' (k + 1) l.length := by
  induction l generalizing k with
  | nil => rfl
  | cons a t ih =>
    show rankOf (rowOfItem k a) ::
        ((List.enumFrom (k + 1) t).map fun p => rowOfItem p.1 p.2).map rankOf
      = (k + 1) :: List.range' (k + 2) t.length
    rw [ih (k + 1)]
    rfl

/-- C4: with selector value `"all"` the renderer shows the whole
comparison array and otherwise (for a numeric selector value) exactly its
first `n` entries, in order and 1-based-indexed; concretely, with an
8-element array selector `"5"` renders ranks 1..5 and `"all"` renders all
8 rows. -/
theorem claim4_holdingsSlice :
    ∀ (data : List HoldingDelta) (count : String) (n : Nat),
      data ≠ [] → jsParseInt count = some n → count ≠ "all" → 0 < n →
      (renderHoldingsTable data "all" = specHoldingsRows data
        ∧ renderHoldingsTable data count = specHoldingsRows (data.take n)
        ∧ (specHoldingsRows data).map rankOf = List.range' 1 data.length
        ∧ (renderHoldingsTable d8 "5").map rankOf = [1, 2, 3, 4, 5]
        ∧ (renderHoldingsTable d8 "all").length = 8) := by
  intro data count n hne hparse hcount hn
  have hl : data.length ≠ 0 := by simpa [List.length_eq_zero] using hne
  refine ⟨?_, ?_, ?_, by decide, by decide⟩
  · simp [renderHoldingsTable, dataToShow, specHoldingsRows, hl]
  · have ht : dataToShow data count = data.take n := by
      simp [dataToShow, hcount, hparse]
    have hl2 : (data.take n).length ≠ 0 := by
      rw [List.length_take]
      have := List.length_pos.mpr hne
      omega
    rw [renderHoldingsTable, ht, if_neg hl2]
    rfl
  · simpa [specHoldingsRows, List.enum] using rank_map_enumFrom data 0

/-- Witness for C4 at the concrete 8-element array and selector `"5"`. -/
theorem claim4_holdingsSlice_witness :
    renderHoldingsTable d8 "5" = specHoldingsRows (d8.take 5)
      ∧ (renderHoldingsTable d8 "5").map rankOf = [1, 2, 3, 4, 5] := by
  have h := claim4_holdingsSlice d8 "5" 5 (List.cons_ne_nil _ _)
    (by decide) (by decide) (by decide)
  exact ⟨h.2.1, h.2.2.2.1⟩

/-- C8: on an empty comparison array the holdings renderer produces
exactly the single full-width placeholder row, whatever the selector
value is. -/
theorem claim8_emptyHoldings :
    ∀ count : String, renderHoldingsTable [] count = [HoldingsRow.noData] := by
  intro count
  have h : dataToShow [] count = [] := by
    rw [dataToShow]
    split
    · rfl
    · cases jsParseInt count <;> simp
  simp [renderHoldingsTable, h]

/-! ## Stats-type selector change handler (main.js lines 452-465) -/

/-- The theme `<select>` element's relevant state. -/
structure ThemeSelState where
  disabled : Bool
  value : String
deriving DecidableEq

/-- The `statsTypeSelect` change handler (main.js lines 452-465): updates
the theme selector and returns whether `loadStatsData()` is invoked. -/
def statsTypeChange (currentView : String) (sel : ThemeSelState)
    (statsType : String) : ThemeSelState × Bool :=
  (if statsType = "duplicate" then { sel with disabled := false }
   else { disabled := true, value := "" },
   currentView == "stats")

/-- C9: after a stats-type change event the theme selector is enabled iff
the selected type is `"duplicate"`; whenever it ends up disabled its value
is cleared to `""`; and stats are reloaded iff the current view is the
stats view. -/
theorem claim9_statsTypeChange :
    ∀ (view : String) (sel : ThemeSelState) (t : String),
      ((statsTypeChange view sel t).1.disabled = false ↔ t = "duplicate")
        ∧ ((statsTypeChange view sel t).1.disabled = true →
            (statsTypeChange view sel t).1.value = "")
        ∧ ((statsTypeChange view sel t).2 = true ↔ view = "stats") := by
  intro view sel t
  refine ⟨?_, ?_, ?_⟩
  · by_cases h : t = "duplicate" <;> simp [statsTypeChange, h]
  · by_cases h : t = "duplicate" <;> simp [statsTypeChange, h]
  · simp [statsTypeChange]

/-- Witness for C9: with type `"amount"` in the stats view the selector is
cleared and stats reload. -/
theorem claim9_statsTypeChange_witness :
    (statsTypeChange "stats" ⟨false, "AI"⟩ "amount").1.value = ""
      ∧ ((statsTypeChange "stats" ⟨false, "AI"⟩ "amount").2 = true
          ↔ "stats" = "stats") :=
  ⟨(claim9_statsTypeChange "stats" ⟨false, "AI"⟩ "amount").2.1 (by decide),
   (claim9_statsTypeChange "stats" ⟨false, "AI"⟩ "amount").2.2⟩

/-! ## View switching and panel visibility (main.js lines 54-69, 293-320,
447-450) -/

/-- The `hidden`-class state of the main panels, the current view string
(`"etf"` or `"stats"`), and the content loaded into the details panel
(`none` until an ETF detail was loaded; loading never clears it). -/
structure Panels where
  currentView : String
  etfDetailsHidden : Bool
  statsViewHidden : Bool
  welcomeHidden : Bool
  chartHidden : Bool
  loadedDetail : Option String
deriving DecidableEq

/-- `switchView` from main.js lines 54-69 (panel/class updates only; the
button text and the `loadStatsData()` call of the stats branch are
modelled elsewhere). -/
def switchView (s : Panels) (view : String) : Panels :=
  if view = "etf" then
    { s with
        currentView := view
        etfDetailsHidden := false
        statsViewHidden := true
        welcomeHidden := false }
  else
    { s with
        currentView := view
        etfDetailsHidden := true
        statsViewHidden := false
        welcomeHidden := true }

/-- The DOM updates of the `fetchEtfDetails` success path (main.js lines
300-313): welcome hidden, details shown, chart hidden, detail content
replaced. -/
def fetchEtfDetailsUi (s : Panels) (ticker : String) : Panels :=
  { s with
      welcomeHidden := true
      etfDetailsHidden := false
      chartHidden := true
      loadedDetail := some ticker }

/-- The `viewToggle` click handler (main.js lines 447-450). -/
def viewToggleClick (s : Panels) : Panels :=
  switchView s (if s.currentView = "etf" then "stats" else "etf")

/-- The initial page state: etf view, welcome panel shown. -/
def panelsInit : Panels :=
  ⟨"etf", true, true, false, true, none⟩

/-- C5 counterexample: after loading an ETF detail, toggling to the stats
view and back, the toggle does show the welcome panel but it also removes
the `hidden` class from the details panel, whose previously loaded
content is untouched — so the previously loaded ETF detail is shown, not
hidden. -/
theorem claim5_cex :
    ¬ (∀ s : Panels, s.currentView = "stats" →
        (viewToggleClick s).etfDetailsHidden = true
          ∨ (viewToggleClick s).loadedDetail = none) := by
  intro h
  have h2 := h (viewToggleClick (fetchEtfDetailsUi panelsInit "069500"))
    (by decide)
  revert h2
  decide

/-- C5 amended: toggling from the stats view always shows the welcome
panel and hides the stats panel, but it also un-hides the ETF details
panel and leaves its previously loaded content in place, so a previously
loaded ETF detail becomes visible again alongside the welcome panel. -/
theorem claim5_amended :
    ∀ s : Panels, s.currentView = "stats" →
      (viewToggleClick s).currentView = "etf"
        ∧ (viewToggleClick s).welcomeHidden = false
        ∧ (viewToggleClick s).statsViewHidden = true
        ∧ (viewToggleClick s).etfDetailsHidden = false
        ∧ (viewToggleClick s).loadedDetail = s.loadedDetail := by
  intro s h
  simp [viewToggleClick, switchView, h]

/-- Witness for C5 (amended) at a concrete stats-view state with a loaded
detail. -/
theorem claim5_amended_witness :
    (viewToggleClick ⟨"stats", true, false, true, true, some "069500"⟩).welcomeHidden = false
      ∧ (viewToggleClick ⟨"stats", true, false, true, true, some "069500"⟩).etfDetailsHidden = false :=
  ⟨(claim5_amended ⟨"stats", true, false, true, true, some "069500"⟩ rfl).2.1,
   (claim5_amended ⟨"stats", true, false, true, true, some "069500"⟩ rfl).2.2.2.1⟩

/-! ## Chart instance lifecycle (main.js lines 176-243 and 293-320)

The `weightChart` variable holds the current `Chart` object (or `null`);
`new Chart(...)` allocates a fresh instance and `destroy()` removes it
from the set of live instances. Instance identity is modelled by a
counter. -/

/-- Chart-related state: the `weightChart` variable, the set of live
chart instances, a fresh-id counter, and the chart panel's `hidden`
class. -/
structure ChartSt where
  weightChart : Option Nat
  alive : Finset Nat
  nextId : Nat
  chartHidden : Bool
deriving DecidableEq

/-- Initial state: `weightChart = null`, no live instance, chart panel
hidden. -/
def chartInit : ChartSt :=
  ⟨none, ∅, 0, true⟩

/-- `if (weightChart) weightChart.destroy();` — the shape shared by
main.js line 306 and lines 184-186. Note the variable is not nulled. -/
def destroyCurrent (s : ChartSt) : ChartSt :=
  match s.weightChart with
  | some c => { s with alive := s.alive.erase c }
  | none => s

/-- The chart-state effect of the `fetchEtfDetails` success path (main.js
lines 305-306), applied before `renderHoldingsTable()` is called on line
313: the chart panel is hidden and the current chart destroyed. -/
def fetchEtfDetailsChart (s : ChartSt) : ChartSt :=
  destroyCurrent { s with chartHidden := true }

/-- `renderWeightChart` (main.js lines 176-243): shows the chart panel,
destroys the current chart if any, then assigns a freshly constructed
chart to `weightChart`. -/
def renderWeightChartSt (s : ChartSt) : ChartSt :=
  let s2 := destroyCurrent { s with chartHidden := false }
  { s2 with
      weightChart := some s2.nextId
      alive := insert s2.nextId s2.alive
      nextId := s2.nextId + 1 }

/-- Chart states reachable from page load through the two operations that
touch the chart. -/
inductive ChartReach : ChartSt → Prop where
  | init : ChartReach chartInit
  | details (s : ChartSt) : ChartReach s → ChartReach (fetchEtfDetailsChart s)
  | render (s : ChartSt) : ChartReach s → ChartReach (renderWeightChartSt s)

lemma destroyCurrent_none (s : ChartSt) (h : s.weightChart = none) :
    destroyCurrent s = s := by
  simp [destroyCurrent, h]

lemma destroyCurrent_some (s : ChartSt) (c : Nat) (h : s.weightChart = some c) :
    destroyCurrent s = { s with alive := s.alive.erase c } := by
  simp [destroyCurrent, h]

lemma chart_inv (s : ChartSt) (hs : ChartReach s) :
    (∀ c ∈ s.alive, s.weightChart = some c)
      ∧ (∀ c, s.weightChart = some c → c < s.nextId) := by
  induction hs with
  | init => exact ⟨by simp [chartInit], by simp [chartInit]⟩
  | details s hs ih =>
    obtain ⟨h1, h2⟩ := ih
    rcases hw : s.weightChart with _ | c
    · rw [fetchEtfDetailsChart,
        destroyCurrent_none { s with chartHidden := true } hw]
      exact ⟨h1, h2⟩
    · rw [fetchEtfDetailsChart,
        destroyCurrent_some { s with chartHidden := true } c hw]
      refine ⟨?_, h2⟩
      intro d hd
      exact h1 d (Finset.mem_of_mem_erase hd)
  | render s hs ih =>
    obtain ⟨h1, h2⟩ := ih
    rcases hw : s.weightChart with _ | c
    · rw [renderWeightChartSt,
        destroyCurrent_none { s with chartHidden := false } hw]
      refine ⟨?_, ?_⟩
      · intro d hd
        rcases Finset.mem_insert.mp hd with hd | hd
        · simp [hd]
        · exact absurd (h1 d hd) (by simp [hw])
      · intro d hd
        simp at hd ⊢
        omega
    · rw [renderWeightChartSt,
        destroyCurrent_some { s with chartHidden := false } c hw]
      refine ⟨?_, ?_⟩
      · intro d hd
        rcases Finset.mem_insert.mp hd with hd | hd
        · simp [hd]
        · obtain ⟨hdc, hda⟩ := Finset.mem_erase.mp hd
          have := h1 d hda
          rw [hw] at this
          exact absurd (Option.some.inj this).symm hdc
      · intro d hd
        simp at hd ⊢
        omega

lemma destroyCurrent_nextId (s : ChartSt) :
    (destroyCurrent s).nextId = s.nextId := by
  rcases hw : s.weightChart with _ | c
  · rw [destroyCurrent_none s hw]
  · rw [destroyCurrent_some s c hw]

lemma destroy_alive_empty (s : ChartSt)
    (h1 : ∀ c ∈ s.alive, s.weightChart = some c) :
    (destroyCurrent s).alive = ∅ := by
  rcases hw : s.weightChart with _ | c
  · rw [destroyCurrent_none s hw]
    refine Finset.eq_empty_of_forall_not_mem ?_
    intro d hd
    exact absurd (h1 d hd) (by simp [hw])
  · rw [destroyCurrent_some s c hw]
    refine Finset.eq_empty_of_forall_not_mem ?_
    intro d hd
    obtain ⟨hdc, hda⟩ := Finset.mem_erase.mp hd
    have := h1 d hda
    rw [hw] at this
    exact absurd (Option.some.inj this).symm hdc

/-- C3: in every reachable chart state at most one chart instance is
alive; the `fetchEtfDetails` success path hides the chart panel and
leaves no live instance before the holdings table is rendered; and
`renderWeightChart` destroys the current instance (the old instance is
not alive afterwards) before its replacement leaves at most one alive. -/
theorem claim3_chartLifecycle :
    ∀ s : ChartSt, ChartReach s →
      s.alive.card ≤ 1
        ∧ (fetchEtfDetailsChart s).chartHidden = true
        ∧ (fetchEtfDetailsChart s).alive = ∅
        ∧ (renderWeightChartSt s).alive.card ≤ 1
        ∧ (∀ c, s.weightChart = some c → c ∉ (renderWeightChartSt s).alive) := by
  intro s hs
  obtain ⟨h1, h2⟩ := chart_inv s hs
  have h1' : ∀ c ∈ ({ s with chartHidden := true } : ChartSt).alive,
      ({ s with chartHidden := true } : ChartSt).weightChart = some c := h1
  have h1'' : ∀ c ∈ ({ s with chartHidden := false } : ChartSt).alive,
      ({ s with chartHidden := false } : ChartSt).weightChart = some c := h1
  have hde : (fetchEtfDetailsChart s).alive = ∅ :=
    destroy_alive_empty { s with chartHidden := true } h1'
  have hre : (destroyCurrent { s with chartHidden := false }).alive = ∅ :=
    destroy_alive_empty { s with chartHidden := false } h1''
  refine ⟨?_, ?_, hde, ?_, ?_⟩
  · refine Finset.card_le_one.mpr ?_
    intro a ha b hb
    have hA := h1 a ha
    have hB := h1 b hb
    rw [hA] at hB
    exact Option.some.inj hB
  · rcases hw : s.weightChart with _ | c
    · rw [fetchEtfDetailsChart,
        destroyCurrent_none { s with chartHidden := true } hw]
    · rw [fetchEtfDetailsChart,
        destroyCurrent_some { s with chartHidden := true } c hw]
  · rw [renderWeightChartSt, hre]
    simp
  · intro c hc
    have hlt := h2 c hc
    rw [renderWeightChartSt, hre, destroyCurrent_nextId]
    simp
    omega

/-- Witness for C3 at the initial state. -/
theorem claim3_chartLifecycle_witness :
    chartInit.alive.card ≤ 1 ∧ (fetchEtfDetailsChart chartInit).alive = ∅ := by
  have h := claim3_chartLifecycle chartInit ChartReach.init
  exact ⟨h.1, h.2.2.1⟩

/-! ## API Gateway fetch wrappers as effect traces (main.js lines 246-377,
417-437)

Each wrapper is a function from the outcome of its own network call to
the list of observable effects it performs, in program order. A nested
call to another wrapper appears as a `call…` marker effect (the callee's
own trace is modelled by the callee's function). -/

/-- The ETF comparison record returned by `/api/etf/{ticker}/comparison`. -/
structure EtfComparison where
  etf_ticker : String
  etf_name : Option String
  prev_date : String
  current_date : String
  comparison : List HoldingDelta
deriving DecidableEq

/-- One point of a stock's weight history. -/
structure StockHistoryPoint where
  date : String
  weight : ℚ
  amount : ℚ
deriving DecidableEq

/-- A stats row (both the duplicate-type and amount-type fields). -/
structure StatsRow where
  name : String
  ticker : String
  etf_count : Nat
  total_amount : ℚ
  avg_weight : ℚ
  max_weight : ℚ
deriving DecidableEq

/-- The body of a stats response (`stocks` or `duplicate_stocks`). -/
structure StatsResp where
  date : String
  stocks : Option (List StatsRow)
  duplicate_stocks : Option (List StatsRow)
deriving DecidableEq

/-- Observable effects of the fetch wrappers. -/
inductive Eff where
  | showLoad (msg : String)
  | hideLoad
  | fetchCall (url : String)
  | consoleLog (msg : String)
  | alertMsg (msg : String)
  | renderList
  | renderThemes
  | renderDetail
  | renderChart (stockName : String)
  | updateHeaders (statsType : String)
  | renderStats
  | callFetchEtfList
  | callLoadThemes
  | callFetchEtfDetails (ticker : String)
  | callLoadStats
deriving DecidableEq

/-- A `fetch` response: HTTP success flag and the JSON decoding outcome. -/
structure Response (α : Type) where
  ok : Bool
  json : Except Unit α

/-- Outcome of one `await fetch(...)`: `.error` when the fetch itself
threw, otherwise the response. -/
abbrev FetchRes (α : Type) : Type :=
  Except Unit (Response α)

/-- `fetchEtfList` (main.js lines 263-272): checks `response.ok`; the
catch block only logs — it raises no alert. -/
def fetchEtfListEff (r : FetchRes (List Etf)) : List Eff :=
  Eff.fetchCall "/api/etfs" ::
    (match r with
     | Except.error _ => [Eff.consoleLog "Error fetching ETF list:"]
     | Except.ok resp =>
       if !resp.ok then [Eff.consoleLog "Error fetching ETF list:"]
       else
         match resp.json with
         | Except.error _ => [Eff.consoleLog "Error fetching ETF list:"]
         | Except.ok _ => [Eff.renderList])

/-- `loadThemes` (main.js lines 274-291): checks `response.ok`; the catch
block only logs — it raises no alert. -/
def loadThemesEff (r : FetchRes (List String)) : List Eff :=
  Eff.fetchCall "/api/config/themes" ::
    (match r with
     | Except.error _ => [Eff.consoleLog "Error loading themes:"]
     | Except.ok resp =>
       if !resp.ok then [Eff.consoleLog "Error loading themes:"]
       else
         match resp.json with
         | Except.error _ => [Eff.consoleLog "Error loading themes:"]
         | Except.ok _ => [Eff.renderThemes])

/-- `fetchEtfDetails` (main.js lines 293-320): loading guard, `ok` check,
catch logs and alerts, `finally` hides the guard. -/
def fetchEtfDetailsEff (ticker : String) (r : FetchRes EtfComparison) :
    List Eff :=
  [Eff.showLoad "ETF 상세 정보를 불러오는 중입니다...",
   Eff.fetchCall ("/api/etf/" ++ ticker ++ "/comparison")]
    ++ (match r with
        | Except.error _ =>
          [Eff.consoleLog "Error fetching ETF details:",
           Eff.alertMsg "ETF 상세 정보를 가져오는 데 실패했습니다."]
        | Except.ok resp =>
          if !resp.ok then
            [Eff.consoleLog "Error fetching ETF details:",
             Eff.alertMsg "ETF 상세 정보를 가져오는 데 실패했습니다."]
          else
            match resp.json with
            | Except.error _ =>
              [Eff.consoleLog "Error fetching ETF details:",
               Eff.alertMsg "ETF 상세 정보를 가져오는 데 실패했습니다."]
            | Except.ok _ => [Eff.renderDetail])
    ++ [Eff.hideLoad]

/-- `fetchStockHistory` (main.js lines 322-335). -/
def fetchStockHistoryEff (etfTicker stockTicker stockName : String)
    (r : FetchRes (List StockHistoryPoint)) : List Eff :=
  [Eff.showLoad "종목 비중 추이를 불러오는 중입니다...",
   Eff.fetchCall ("/api/etf/" ++ etfTicker ++ "/stock/" ++ stockTicker ++ "/history")]
    ++ (match r with
        | Except.error _ =>
          [Eff.consoleLog "Error fetching stock history:",
           Eff.alertMsg "종목 비중 추이를 가져오는 데 실패했습니다."]
        | Except.ok resp =>
          if !resp.ok then
            [Eff.consoleLog "Error fetching stock history:",
             Eff.alertMsg "종목 비중 추이를 가져오는 데 실패했습니다."]
          else
            match resp.json with
            | Except.error _ =>
              [Eff.consoleLog "Error fetching stock history:",
               Eff.alertMsg "종목 비중 추이를 가져오는 데 실패했습니다."]
            | Except.ok _ => [Eff.renderChart stockName])
    ++ [Eff.hideLoad]

/-- The stats URL computation of main.js lines 343-352 (URI encoding of
the theme is not modelled). -/
def statsUrl (statsType theme : String) : String :=
  if statsType = "duplicate" then
    (if theme = "" then "/api/stats/duplicate-stocks"
     else "/api/stats/theme/" ++ theme)
  else if statsType = "amount" then "/api/stats/amount-ranking"
  else "undefined"

/-- `loadStatsData` (main.js lines 337-377). -/
def loadStatsDataEff (statsType theme : String) (r : FetchRes StatsResp) :
    List Eff :=
  [Eff.showLoad "통계 데이터를 불러오는 중입니다...",
   Eff.fetchCall (statsUrl statsType theme)]
    ++ (match r with
        | Except.error _ =>
          [Eff.consoleLog "Error loading stats data:",
           Eff.alertMsg "통계 데이터를 가져오는 데 실패했습니다."]
        | Except.ok resp =>
          if !resp.ok then
            [Eff.consoleLog "Error loading stats data:",
             Eff.alertMsg "통계 데이터를 가져오는 데 실패했습니다."]
          else
            match resp.json with
            | Except.error _ =>
              [Eff.consoleLog "Error loading stats data:",
               Eff.alertMsg "통계 데이터를 가져오는 데 실패했습니다."]
            | Except.ok _ => [Eff.updateHeaders statsType, Eff.renderStats])
    ++ [Eff.hideLoad]

/-- `initializeApp` (main.js lines 246-261). Note: `response.ok` is NOT
checked; the JSON payload is the `result.message` string alerted on
success. -/
def initializeAppEff (r : FetchRes String) : List Eff :=
  [Eff.showLoad "애플리케이션을 초기화하고 있습니다. 잠시만 기다려주세요...",
   Eff.fetchCall "/api/system/initialize"]
    ++ (match r with
        | Except.error _ =>
          [Eff.consoleLog "Initialization error:",
           Eff.alertMsg "초기화 중 오류가 발생했습니다."]
        | Except.ok resp =>
          match resp.json with
          | Except.error _ =>
            [Eff.consoleLog "Initialization error:",
             Eff.alertMsg "초기화 중 오류가 발생했습니다."]
          | Except.ok msg =>
            [Eff.alertMsg msg, Eff.callFetchEtfList, Eff.callLoadThemes])
    ++ [Eff.hideLoad]

/-- The `refreshBtn` click handler (main.js lines 417-437). Note:
`response.ok` is NOT checked. `activeEtf` is the ticker of the `.active`
list item, if any; `view` is `currentView`. -/
def refreshEff (view : String) (activeEtf : Option String)
    (r : FetchRes String) : List Eff :=
  [Eff.showLoad "최신 데이터로 업데이트 중입니다...",
   Eff.fetchCall "/api/system/update"]
    ++ (match r with
        | Except.error _ =>
          [Eff.consoleLog "Refresh error:",
           Eff.alertMsg "데이터 업데이트 중 오류가 발생했습니다."]
        | Except.ok resp =>
          match resp.json with
          | Except.error _ =>
            [Eff.consoleLog "Refresh error:",
             Eff.alertMsg "데이터 업데이트 중 오류가 발생했습니다."]
          | Except.ok msg =>
            Eff.alertMsg msg ::
              (match activeEtf with
               | some t =>
                 if view = "etf" then [Eff.callFetchEtfDetails t]
                 else if view = "stats" then [Eff.callLoadStats]
                 else []
               | none =>
                 if view = "stats" then [Eff.callLoadStats]
                 else []))
    ++ [Eff.hideLoad]

/-- Is this effect a user-facing alert? -/
def isAlertE : Eff → Bool
  | Eff.alertMsg _ => true
  | _ => false

/-- Is this effect a console log? -/
def isLogE : Eff → Bool
  | Eff.consoleLog _ => true
  | _ => false

/-- Is this effect a network call made by the wrapper itself? -/
def isFetchE : Eff → Bool
  | Eff.fetchCall _ => true
  | _ => false

/-- Is this effect the loading overlay being shown? -/
def isShowE : Eff → Bool
  | Eff.showLoad _ => true
  | _ => false

/-- Is this effect the loading overlay being hidden? -/
def isHideE : Eff → Bool
  | Eff.hideLoad => true
  | _ => false

def countAlerts (t : List Eff) : Nat := t.countP isAlertE

def countLogs (t : List Eff) : Nat := t.countP isLogE

def countFetches (t : List Eff) : Nat := t.countP isFetchE

def countShows (t : List Eff) : Nat := t.countP isShowE

def countHides (t : List Eff) : Nat := t.countP isHideE

/-- Did the JSON decoding fail? -/
def isErrJson {α : Type} : Except Unit α → Bool
  | Except.error _ => true
  | Except.ok _ => false

/-- An error outcome for the wrappers that check `response.ok`: the fetch
threw, the status was not ok, or the body failed to decode. -/
def isErrorOutcome {α : Type} : FetchRes α → Bool
  | Except.error _ => true
  | Except.ok resp => !resp.ok || isErrJson resp.json

/-- An error outcome for `initializeApp` and the refresh handler, which
never check `response.ok`: the fetch threw or the body failed to decode. -/
def isThrownOrBadJson {α : Type} : FetchRes α → Bool
  | Except.error _ => true
  | Except.ok resp => isErrJson resp.json

/-- C2 counterexample: the `fetchEtfList` error path logs once to the
console but raises NO alert, contradicting the claim that every API
Gateway method's error path ends in exactly one console log and one
alert; furthermore, on a non-success HTTP status with a decodable JSON
body, `initializeApp` and the refresh handler log NOTHING to the console
(they never check `response.ok` and follow the success path, alerting the
payload message), contradicting the same claim for the non-success-status
case. -/
theorem claim2_cex :
    isErrorOutcome (Except.error () : FetchRes (List Etf)) = true
      ∧ countLogs (fetchEtfListEff (Except.error ())) = 1
      ∧ countAlerts (fetchEtfListEff (Except.error ())) = 0
      ∧ countLogs (initializeAppEff (Except.ok ⟨false, Except.ok "done"⟩)) = 0
      ∧ countLogs (refreshEff "etf" none (Except.ok ⟨false, Except.ok "done"⟩)) = 0
      ∧ countAlerts (refreshEff "etf" none (Except.ok ⟨false, Except.ok "done"⟩)) = 1
      ∧ Eff.alertMsg "done"
          ∈ refreshEff "etf" none (Except.ok ⟨false, Except.ok "done"⟩) := by
  refine ⟨rfl, rfl, rfl, rfl, rfl, rfl, ?_⟩
  simp [refreshEff]

/-- C2 amended: on every error outcome each wrapper logs exactly once to
the console and performs exactly one network call of its own (no retry);
`fetchEtfDetails`, `fetchStockHistory`, `loadStatsData`, `initializeApp`
and the refresh handler additionally raise exactly one alert, while
`fetchEtfList` and `loadThemes` raise none; moreover `initializeApp` (and
the refresh handler) never check the HTTP status, so a non-success
response with a decodable body follows the success path (alerting the
payload message, no console log). -/
theorem claim2_amended :
    ∀ (rl : FetchRes (List Etf)) (rt : FetchRes (List String))
      (rd : FetchRes EtfComparison) (rh : FetchRes (List StockHistoryPoint))
      (rs : FetchRes StatsResp) (ri ru : FetchRes String)
      (ticker etfT stockT stockN st th view : String) (act : Option String)
      (resp2 resp3 : Response String) (m m2 : String),
      isErrorOutcome rl = true → isErrorOutcome rt = true →
      isErrorOutcome rd = true → isErrorOutcome rh = true →
      isErrorOutcome rs = true → isThrownOrBadJson ri = true →
      isThrownOrBadJson ru = true →
      resp2.ok = false → resp2.json = Except.ok m →
      resp3.ok = false → resp3.json = Except.ok m2 →
      ((countLogs (fetchEtfListEff rl) = 1
          ∧ countAlerts (fetchEtfListEff rl) = 0
          ∧ countFetches (fetchEtfListEff rl) = 1)
        ∧ (countLogs (loadThemesEff rt) = 1
          ∧ countAlerts (loadThemesEff rt) = 0
          ∧ countFetches (loadThemesEff rt) = 1)
        ∧ (countLogs (fetchEtfDetailsEff ticker rd) = 1
          ∧ countAlerts (fetchEtfDetailsEff ticker rd) = 1
          ∧ countFetches (fetchEtfDetailsEff ticker rd) = 1)
        ∧ (countLogs (fetchStockHistoryEff etfT stockT stockN rh) = 1
          ∧ countAlerts (fetchStockHistoryEff etfT stockT stockN rh) = 1
          ∧ countFetches (fetchStockHistoryEff etfT stockT stockN rh) = 1)
        ∧ (countLogs (loadStatsDataEff st th rs) = 1
          ∧ countAlerts (loadStatsDataEff st th rs) = 1
          ∧ countFetches (loadStatsDataEff st th rs) = 1)
        ∧ (countLogs (initializeAppEff ri) = 1
          ∧ countAlerts (initializeAppEff ri) = 1
          ∧ countFetches (initializeAppEff ri) = 1)
        ∧ (countLogs (refreshEff view act ru) = 1
          ∧ countAlerts (refreshEff view act ru) = 1
          ∧ countFetches (refreshEff view act ru) = 1)
        ∧ (countLogs (initializeAppEff (Except.ok resp2)) = 0
          ∧ Eff.alertMsg m ∈ initializeAppEff (Except.ok resp2))
        ∧ (countLogs (refreshEff view act (Except.ok resp3)) = 0
          ∧ Eff.alertMsg m2 ∈ refreshEff view act (Except.ok resp3))) := by
  intro rl rt rd rh rs ri ru ticker etfT stockT stockN st th view act
    resp2 resp3 m m2 h1 h2 h3 h4 h5 h6 h7 hb hj hb2 hj2
  refine ⟨?_, ?_, ?_, ?_, ?_, ?_, ?_, ?_, ?_⟩
  · rcases rl with u | ⟨ok, json⟩
    · exact ⟨rfl, rfl, rfl⟩
    · cases ok
      · exact ⟨rfl, rfl, rfl⟩
      · cases json with
        | error u => exact ⟨rfl, rfl, rfl⟩
        | ok v => simp [isErrorOutcome, isErrJson] at h1
  · rcases rt with u | ⟨ok, json⟩
    · exact ⟨rfl, rfl, rfl⟩
    · cases ok
      · exact ⟨rfl, rfl, rfl⟩
      · cases json with
        | error u => exact ⟨rfl, rfl, rfl⟩
        | ok v => simp [isErrorOutcome, isErrJson] at h2
  · rcases rd with u | ⟨ok, json⟩
    · exact ⟨rfl, rfl, rfl⟩
    · cases ok
      · exact ⟨rfl, rfl, rfl⟩
      · cases json with
        | error u => exact ⟨rfl, rfl, rfl⟩
        | ok v => simp [isErrorOutcome, isErrJson] at h3
  · rcases rh with u | ⟨ok, json⟩
    · exact ⟨rfl, rfl, rfl⟩
    · cases ok
      · exact ⟨rfl, rfl, rfl⟩
      · cases json with
        | error u => exact ⟨rfl, rfl, rfl⟩
        | ok v => simp [isErrorOutcome, isErrJson] at h4
  · rcases rs with u | ⟨ok, json⟩
    · exact ⟨rfl, rfl, rfl⟩
    · cases ok
      · exact ⟨rfl, rfl, rfl⟩
      · cases json with
        | error u => exact ⟨rfl, rfl, rfl⟩
        | ok v => simp [isErrorOutcome, isErrJson] at h5
  · rcases ri with u | ⟨ok, json⟩
    · exact ⟨rfl, rfl, rfl⟩
    · cases json with
      | error u => exact ⟨rfl, rfl, rfl⟩
      | ok v => simp [isThrownOrBadJson, isErrJson] at h6
  · rcases ru with u | ⟨ok, json⟩
    · exact ⟨rfl, rfl, rfl⟩
    · cases json with
      | error u => exact ⟨rfl, rfl, rfl⟩
      | ok v => simp [isThrownOrBadJson, isErrJson] at h7
  · obtain ⟨ok2, json2⟩ := resp2
    dsimp at hj
    subst hj
    exact ⟨rfl, by simp [initializeAppEff]⟩
  · obtain ⟨ok3, json3⟩ := resp3
    dsimp at hj2
    subst hj2
    constructor
    · rcases act with _ | t3
      · by_cases hv : view = "stats"
        · simp only [refreshEff, hv]
          rfl
        · simp only [refreshEff, if_neg hv]
          rfl
      · by_cases hv : view = "etf"
        · simp only [refreshEff, hv]
          rfl
        · by_cases hv2 : view = "stats"
          · simp only [refreshEff, if_neg hv, hv2]
            rfl
          · simp only [refreshEff, if_neg hv, if_neg hv2]
            rfl
    · simp [refreshEff]

/-- Witness for C2 (amended) at concrete error outcomes and a concrete
non-success decodable response. -/
theorem claim2_amended_witness :
    countAlerts (fetchEtfListEff (Except.error ())) = 0
      ∧ countAlerts (fetchEtfDetailsEff "069500" (Except.error ())) = 1
      ∧ countLogs (refreshEff "etf" none (Except.ok ⟨false, Except.ok "완료"⟩)) = 0 := by
  have h := claim2_amended (Except.error ()) (Except.error ())
    (Except.error ()) (Except.error ()) (Except.error ()) (Except.error ())
    (Except.error ()) "069500" "069500" "005930" "삼성전자" "duplicate" ""
    "etf" none ⟨false, Except.ok "완료"⟩ ⟨false, Except.ok "완료"⟩ "완료" "완료"
    rfl rfl rfl rfl rfl rfl rfl rfl rfl rfl rfl
  exact ⟨h.1.2.1, h.2.2.1.2.1, h.2.2.2.2.2.2.2.2.1⟩

/-- The Loading Guard contract for one handler invocation: the trace
starts by showing the overlay, ends by hiding it (the `finally` path),
and does each exactly once. -/
def guardOk (t : List Eff) : Prop :=
  (∃ msg, t.head? = some (Eff.showLoad msg))
    ∧ t.getLast? = some Eff.hideLoad
    ∧ countShows t = 1
    ∧ countHides t = 1

/-- C6: every handler that engages the Loading Guard (`fetchEtfDetails`,
`fetchStockHistory`, `loadStatsData`, `initializeApp`, and the refresh
handler) releases it on every completion path — success, thrown error, or
non-success HTTP status — with the hide as the final effect; the
wrappers' traces are total functions of the outcome, so no failure
escapes a handler. -/
theorem claim6_loadingGuard :
    ∀ (ticker etfT stockT stockN st th view : String) (act : Option String)
      (rd : FetchRes EtfComparison) (rh : FetchRes (List StockHistoryPoint))
      (rs : FetchRes StatsResp) (ri ru : FetchRes String),
      guardOk (fetchEtfDetailsEff ticker rd)
        ∧ guardOk (fetchStockHistoryEff etfT stockT stockN rh)
        ∧ guardOk (loadStatsDataEff st th rs)
        ∧ guardOk (initializeAppEff ri)
        ∧ guardOk (refreshEff view act ru) := by
  intro ticker etfT stockT stockN st th view act rd rh rs ri ru
  refine ⟨?_, ?_, ?_, ?_, ?_⟩
  · rcases rd with u | ⟨ok, json⟩
    · exact ⟨⟨_, rfl⟩, rfl, rfl, rfl⟩
    · cases ok
      · exact ⟨⟨_, rfl⟩, rfl, rfl, rfl⟩
      · cases json with
        | error u => exact ⟨⟨_, rfl⟩, rfl, rfl, rfl⟩
        | ok v => exact ⟨⟨_, rfl⟩, rfl, rfl, rfl⟩
  · rcases rh with u | ⟨ok, json⟩
    · exact ⟨⟨_, rfl⟩, rfl, rfl, rfl⟩
    · cases ok
      · exact ⟨⟨_, rfl⟩, rfl, rfl, rfl⟩
      · cases json with
        | error u => exact ⟨⟨_, rfl⟩, rfl, rfl, rfl⟩
        | ok v => exact ⟨⟨_, rfl⟩, rfl, rfl, rfl⟩
  · rcases rs with u | ⟨ok, json⟩
    · exact ⟨⟨_, rfl⟩, rfl, rfl, rfl⟩
    · cases ok
      · exact ⟨⟨_, rfl⟩, rfl, rfl, rfl⟩
      · cases json with
        | error u => exact ⟨⟨_, rfl⟩, rfl, rfl, rfl⟩
        | ok v => exact ⟨⟨_, rfl⟩, rfl, rfl, rfl⟩
  · rcases ri with u | ⟨ok, json⟩
    · exact ⟨⟨_, rfl⟩, rfl, rfl, rfl⟩
    · cases json with
      | error u => exact ⟨⟨_, rfl⟩, rfl, rfl, rfl⟩
      | ok v => exact ⟨⟨_, rfl⟩, rfl, rfl, rfl⟩
  · rcases ru with u | ⟨ok, json⟩
    · exact ⟨⟨_, rfl⟩, rfl, rfl, rfl⟩
    · cases json with
      | error u => exact ⟨⟨_, rfl⟩, rfl, rfl, rfl⟩
      | ok msg =>
        rcases act with _ | t3
        · by_cases hv : view = "stats"
          · simp only [refreshEff, hv]
            exact ⟨⟨_, rfl⟩, rfl, rfl, rfl⟩
          · simp only [refreshEff, if_neg hv]
            exact ⟨⟨_, rfl⟩, rfl, rfl, rfl⟩
        · by_cases hv : view = "etf"
          · simp only [refreshEff, hv]
            exact ⟨⟨_, rfl⟩, rfl, rfl, rfl⟩
          · by_cases hv2 : view = "stats"
            · simp only [refreshEff, if_neg hv, hv2]
              exact ⟨⟨_, rfl⟩, rfl, rfl, rfl⟩
            · simp only [refreshEff, if_neg hv, if_neg hv2]
              exact ⟨⟨_, rfl⟩, rfl, rfl, rfl⟩

/-- C7: after the refresh handler's update call succeeds, in the etf view
with an active ETF it reloads that ETF's detail (and does not reload the
stats); in the stats view it reloads the stats and never an ETF detail,
even when an ETF item is still active. -/
theorem claim7_refreshReload :
    ∀ (act : Option String) (t msg : String) (resp : Response String),
      resp.json = Except.ok msg →
      ((Eff.callFetchEtfDetails t ∈ refreshEff "etf" (some t) (Except.ok resp)
          ∧ Eff.callLoadStats ∉ refreshEff "etf" (some t) (Except.ok resp))
        ∧ (Eff.callLoadStats ∈ refreshEff "stats" act (Except.ok resp)
          ∧ ∀ t2, Eff.callFetchEtfDetails t2 ∉
              refreshEff "stats" act (Except.ok resp))) := by
  intro act t msg resp hj
  obtain ⟨ok, json⟩ := resp
  dsimp at hj
  subst hj
  refine ⟨⟨?_, ?_⟩, ?_, ?_⟩
  · simp [refreshEff]
  · simp [refreshEff]
  · rcases act with _ | t3 <;> simp [refreshEff]
  · intro t2
    rcases act with _ | t3 <;> simp [refreshEff]

/-- Witness for C7 at a concrete successful update in each view. -/
theorem claim7_refreshReload_witness :
    Eff.callFetchEtfDetails "069500"
        ∈ refreshEff "etf" (some "069500") (Except.ok ⟨true, Except.ok "완료"⟩)
      ∧ Eff.callLoadStats
        ∈ refreshEff "stats" (some "069500") (Except.ok ⟨true, Except.ok "완료"⟩) := by
  have h := claim7_refreshReload (some "069500") "069500" "완료"
    ⟨true, Except.ok "완료"⟩ rfl
  exact ⟨h.1.1, h.2.1⟩

end EtfMonitor
